import Mathlib

/-!
Verification of the react-leaflet Ellipse adapter (devto-react-leaflet-ellipse).

The source is a tutorial whose final artifact is an `Ellipse` component built
from a `createEllipse` / `updateEllipse` pair handed to react-leaflet's
`createPathComponent`, plus a `Map` component rendering one `Ellipse` (with a
`Popup` child) per city.

Shallow embedding conventions:
- A JS value is a primitive (number, string, undefined) or a reference to a
  heap object; `!==` on references is address inequality, which is exactly
  `DecidableEq` on `JSVal`.
- Side effects are made explicit as traces: `createEllipse` and the mount
  effect return the list of layer events they perform, `updateEllipse`
  returns the list of mutator calls it performs.
- A mutator that can throw is a function into `Except String`; absence of
  `try`/`catch` in the source becomes monadic short-circuiting.
-/

namespace ReactLeafletEllipse

/-- A JavaScript value as compared by `!==`: primitives by value,
arrays/objects by reference (heap address). -/
inductive JSVal where
  | undef
  | num (n : Int)
  | str (s : String)
  | ref (addr : Nat)
deriving DecidableEq, Repr

/-- One level of heap content behind a reference: an array of values or a
record of named fields (nested references stay references). -/
inductive HVal where
  | arr (elems : List JSVal)
  | obj (fields : List (String × JSVal))
deriving DecidableEq, Repr

/-- A heap assigning content to allocated addresses. -/
def Heap := Nat → Option HVal

/-- Structural ("value") equality of two JS values relative to a heap:
primitives must be equal, references may differ as addresses as long as the
heap contents behind them coincide. This is the notion of "structurally
identical but newly allocated" used to discuss the reference-equality check
in `updateEllipse`. -/
def structEq (h : Heap) (v w : JSVal) : Prop :=
  v = w ∨ ∃ a b hv, v = JSVal.ref a ∧ w = JSVal.ref b ∧ h a = some hv ∧ h b = some hv

/-- The props of the Ellipse component: `{ center, radii, tilt, options }`. -/
structure Props where
  center : JSVal
  radii : JSVal
  tilt : JSVal
  options : JSVal
deriving DecidableEq, Repr

/-- The imperative `L.Ellipse` instance, with the state its four mutators
control. -/
structure LEllipse where
  center : JSVal
  radii : JSVal
  tilt : JSVal
  options : JSVal
deriving DecidableEq, Repr

/-- The positional constructor of the Leaflet.Ellipse plugin:
`new L.Ellipse(latlng, radii, tilt, options)`.  The first positional argument
is the center, the second the radii pair, the third the tilt, the fourth the
style options. -/
def LEllipse.new (latlng radii tilt options : JSVal) : LEllipse :=
  { center := latlng, radii := radii, tilt := tilt, options := options }

/-- Keys of the react-leaflet context object. `other` covers any further key
the surrounding tree may have put into the context. -/
inductive CtxKey where
  | map
  | layerContainer
  | overlayContainer
  | other (name : String)
deriving DecidableEq, Repr

/-- The react-leaflet context: a JS record, read as a total map from keys to
values (`JSVal.undef` for absent keys). -/
def Ctx := CtxKey → JSVal

/-- The element produced by `createEllipse`: the allocated instance (with the
address `new` allocated it at) and the context exposed to descendants. -/
structure Element where
  inst : LEllipse
  instAddr : Nat
  context : Ctx

/-- Observable layer events performed by the component's effects. -/
inductive Event where
  | allocEllipse (addr : Nat) (e : LEllipse)
  | addLayer (container : JSVal) (layer : JSVal)
  | removeLayer (container : JSVal) (layer : JSVal)
deriving DecidableEq, Repr

/-- Whether an event is an `addLayer` (attachment) call. -/
def isAddLayer : Event → Bool
  | Event.addLayer _ _ => true
  | _ => false

/-- `createEllipse(props, context)` from the source:

```js
function createEllipse(props, context) {
  const instance = new L.Ellipse(props.center, props.radii, props.tilt, props.options)
  return { instance, context: { ...context, overlayContainer: instance } }
}
```

`fresh` is the address at which `new` allocates the instance.  The spread
`{ ...context, overlayContainer: instance }` is the pointwise function that
returns the new instance at key `overlayContainer` and the input context's
value everywhere else.  The trace records the single allocation; no layer
event occurs. -/
def createEllipse (fresh : Nat) (props : Props) (context : Ctx) :
    Element × List Event :=
  let e := LEllipse.new props.center props.radii props.tilt props.options
  ({ inst := e
     instAddr := fresh
     context := fun k =>
       if k = CtxKey.overlayContainer then JSVal.ref fresh else context k },
   [Event.allocEllipse fresh e])

/-- One mutator invocation on the instance, with its argument. -/
inductive MutatorCall where
  | setLatLng (v : JSVal)
  | setRadius (v : JSVal)
  | setTilt (v : JSVal)
  | setStyle (v : JSVal)
deriving DecidableEq, Repr

/-- The four mutators of the imperative instance, each allowed to throw
(`Except.error` carries the thrown message). -/
structure MutatorSet where
  setLatLng : LEllipse → JSVal → Except String LEllipse
  setRadius : LEllipse → JSVal → Except String LEllipse
  setTilt : LEllipse → JSVal → Except String LEllipse
  setStyle : LEllipse → JSVal → Except String LEllipse

/-- The guard of `updateEllipse`, exactly as written in the source: one
combined disjunction of four strict-inequality (`!==`) comparisons.

```js
props.center !== prevProps.center || props.radii !== prevProps.radii ||
props.tilt !== prevProps.tilt || props.options !== prevProps.options
``` -/
def shouldUpdate (props prevProps : Props) : Bool :=
  decide (props.center ≠ prevProps.center) ||
  decide (props.radii ≠ prevProps.radii) ||
  decide (props.tilt ≠ prevProps.tilt) ||
  decide (props.options ≠ prevProps.options)

/-- `updateEllipse(instance, props, prevProps)` from the source:

```js
function updateEllipse(instance, props, prevProps) {
  if (props.center !== prevProps.center || props.radii !== prevProps.radii ||
      props.tilt !== prevProps.tilt || props.options !== prevProps.options) {
    instance.setLatLng(props.center)
    instance.setRadius(props.radii)
    instance.setTilt(props.tilt)
    instance.setStyle(props.options)
  }
}
```

There is no `try`/`catch`: a throw from any mutator aborts the remaining
calls and propagates (`Except.error`).  The second component is the trace of
mutator calls actually made, in order. -/
def updateEllipse (m : MutatorSet) (inst : LEllipse) (props prevProps : Props) :
    Except String LEllipse × List MutatorCall :=
  if shouldUpdate props prevProps then
    match m.setLatLng inst props.center with
    | Except.error e => (Except.error e, [MutatorCall.setLatLng props.center])
    | Except.ok i1 =>
      match m.setRadius i1 props.radii with
      | Except.error e =>
          (Except.error e,
           [MutatorCall.setLatLng props.center, MutatorCall.setRadius props.radii])
      | Except.ok i2 =>
        match m.setTilt i2 props.tilt with
        | Except.error e =>
            (Except.error e,
             [MutatorCall.setLatLng props.center, MutatorCall.setRadius props.radii,
              MutatorCall.setTilt props.tilt])
        | Except.ok i3 =>
          match m.setStyle i3 props.options with
          | Except.error e =>
              (Except.error e,
               [MutatorCall.setLatLng props.center, MutatorCall.setRadius props.radii,
                MutatorCall.setTilt props.tilt, MutatorCall.setStyle props.options])
          | Except.ok i4 =>
              (Except.ok i4,
               [MutatorCall.setLatLng props.center, MutatorCall.setRadius props.radii,
                MutatorCall.setTilt props.tilt, MutatorCall.setStyle props.options])
  else (Except.ok inst, [])

/-- The mutators as the Leaflet.Ellipse plugin implements them: plain field
assignments that never throw. -/
def leafletMutators : MutatorSet where
  setLatLng := fun i v => Except.ok { i with center := v }
  setRadius := fun i v => Except.ok { i with radii := v }
  setTilt := fun i v => Except.ok { i with tilt := v }
  setStyle := fun i v => Except.ok { i with options := v }

/-- JS truthiness, as used by `context.layerContainer || context.map`. -/
def truthy : JSVal → Bool
  | JSVal.undef => false
  | JSVal.num n => n != 0
  | JSVal.str s => s != ""
  | JSVal.ref _ => true

/-- The token the mount effect's closure captures: the resolved container and
the attached layer, pinned at mount time. -/
structure MountToken where
  container : JSVal
  layer : JSVal
deriving DecidableEq, Repr

/-- The mount effect of the improved `Ellipse` component (empty dependency
array, so it runs once per mount):

```js
useEffect(() => {
  ellipseRef.current = new L.Ellipse(center, radii, tilt, options)
  const container = context.layerContainer || context.map
  container.addLayer(ellipseRef.current)
  return () => { container.removeLayer(ellipseRef.current) }
}, [])
```

Returns the token the cleanup closure captures (`container` and the layer)
and the event trace of the effect body. -/
def mountEffect (center radii tilt options : JSVal) (fresh : Nat)
    (context : Ctx) : MountToken × List Event :=
  let ellipse := LEllipse.new center radii tilt options
  let container :=
    if truthy (context CtxKey.layerContainer) then context CtxKey.layerContainer
    else context CtxKey.map
  ({ container := container, layer := JSVal.ref fresh },
   [Event.allocEllipse fresh ellipse, Event.addLayer container (JSVal.ref fresh)])

/-- The cleanup returned by the mount effect: one `removeLayer` on the
container captured by the closure at mount time. -/
def cleanupEffect (token : MountToken) : List Event :=
  [Event.removeLayer token.container token.layer]

/-- A row of the city data consumed by `Map.jsx`. -/
structure City where
  lat : Int
  lng : Int
  semimajor : Int
  semiminor : Int
  tilt : Int
  options : JSVal
deriving DecidableEq, Repr

/-- The `Ellipse` JSX element `Map.jsx` renders for one city, with its React
key and the key of its `Popup` child. -/
structure EllipseJSX where
  key : Int
  center : Int × Int
  radii : Int × Int
  tilt : Int
  options : JSVal
  popupKey : Int
deriving DecidableEq, Repr

/-- The element `Map.jsx` builds per city:

```jsx
<Ellipse center={[city.lat, city.lng]} radii={[city.semimajor, city.semiminor]}
         tilt={city.tilt} options={city.options} key={city.tilt}>
  <Popup key={city.lat}>...</Popup>
</Ellipse>
``` -/
def renderCityEllipse (city : City) : EllipseJSX :=
  { key := city.tilt
    center := (city.lat, city.lng)
    radii := (city.semimajor, city.semiminor)
    tilt := city.tilt
    options := city.options
    popupKey := city.lat }

/-- `cities.map((city) => <Ellipse .../>)` in `Map.jsx`. -/
def renderEllipses (cities : List City) : List EllipseJSX :=
  cities.map renderCityEllipse

/-! Concrete values for the spec's worked scenario:
`{center:[38,-82], radii:[500000,300000], tilt:15, options:{color:'blue'}}`.
The arrays and the options record are heap objects; address 3 holds a second,
newly allocated copy of the center array with identical contents. -/

/-- Heap for the scenario: the center array at address 0, the radii array at
address 1, the options record at address 2, and a structurally identical but
distinct copy of the center array at address 3. -/
def scenarioHeap : Heap := fun a =>
  if a = 0 then some (HVal.arr [JSVal.num 38, JSVal.num (-82)])
  else if a = 1 then some (HVal.arr [JSVal.num 500000, JSVal.num 300000])
  else if a = 2 then some (HVal.obj [(("color"), JSVal.str ("blue"))])
  else if a = 3 then some (HVal.arr [JSVal.num 38, JSVal.num (-82)])
  else none

/-- The scenario props, referring to the scenario heap. -/
def scenarioProps : Props :=
  { center := JSVal.ref 0, radii := JSVal.ref 1
    tilt := JSVal.num 15, options := JSVal.ref 2 }

/-- The scenario props after changing only `tilt` to `20` (same array and
record references for the other three attributes). -/
def scenarioPropsTilt20 : Props := { scenarioProps with tilt := JSVal.num 20 }

/-- The scenario props after replacing the center array by the structurally
identical copy allocated at address 3. -/
def scenarioPropsNewCenter : Props := { scenarioProps with center := JSVal.ref 3 }

/-- The instance created from the scenario props. -/
def inst0 : LEllipse :=
  LEllipse.new (JSVal.ref 0) (JSVal.ref 1) (JSVal.num 15) (JSVal.ref 2)

/-- A root context: only the `map` key is set (to the map object at address
100); there is no layer container. -/
def ctxRoot : Ctx := fun k =>
  match k with
  | CtxKey.map => JSVal.ref 100
  | _ => JSVal.undef

/-- A mutator set whose `setTilt` models an instance rejecting the update by
throwing; the other mutators behave as in the plugin. -/
def tiltRejectingMutators : MutatorSet :=
  { leafletMutators with setTilt := fun _ _ => Except.error ("invalid tilt") }

/-- When the combined guard of `updateEllipse` fires, the plugin's mutators
run in source order and every mutator is invoked with the corresponding value
of the new props. -/
theorem updateEllipse_leaflet_fires (inst : LEllipse) (props prevProps : Props)
    (h : shouldUpdate props prevProps = true) :
    updateEllipse leafletMutators inst props prevProps =
      (Except.ok (LEllipse.new props.center props.radii props.tilt props.options),
       [MutatorCall.setLatLng props.center, MutatorCall.setRadius props.radii,
        MutatorCall.setTilt props.tilt, MutatorCall.setStyle props.options]) := by
  simp [updateEllipse, h, leafletMutators, LEllipse.new]

/-- Claim C1 (counterexample): the spec's scenario input itself refutes
per-attribute independence.  Changing only `tilt` (from `15` to `20`, with
center, radii and options the very same references) makes `updateEllipse`
invoke `setLatLng`, `setRadius` and `setStyle` as well, because the source
uses one combined `||` comparison guarding a block that calls all four
mutators. -/
theorem updateEllipse_single_change_cex :
    scenarioPropsTilt20.center = scenarioProps.center ∧
    scenarioPropsTilt20.radii = scenarioProps.radii ∧
    scenarioPropsTilt20.options = scenarioProps.options ∧
    scenarioPropsTilt20.tilt ≠ scenarioProps.tilt ∧
    MutatorCall.setLatLng scenarioPropsTilt20.center ∈
      (updateEllipse leafletMutators inst0 scenarioPropsTilt20 scenarioProps).2 ∧
    MutatorCall.setRadius scenarioPropsTilt20.radii ∈
      (updateEllipse leafletMutators inst0 scenarioPropsTilt20 scenarioProps).2 ∧
    MutatorCall.setStyle scenarioPropsTilt20.options ∈
      (updateEllipse leafletMutators inst0 scenarioPropsTilt20 scenarioProps).2 := by
  decide

/-- Claim C1 (amended): when exactly one tracked attribute (center, radii,
tilt or options) differs between `props` and `prevProps`, `updateEllipse`
invokes all four mutators — `setLatLng`, `setRadius`, `setTilt`, `setStyle`,
in that order, each with the new props' value — because the comparison is a
single combined disjunction guarding one block, not one independent
comparison and mutator per attribute. -/
theorem updateEllipse_single_change_all_mutators (inst : LEllipse)
    (props prevProps : Props)
    (hone : (props.center ≠ prevProps.center ∧ props.radii = prevProps.radii ∧
             props.tilt = prevProps.tilt ∧ props.options = prevProps.options) ∨
            (props.center = prevProps.center ∧ props.radii ≠ prevProps.radii ∧
             props.tilt = prevProps.tilt ∧ props.options = prevProps.options) ∨
            (props.center = prevProps.center ∧ props.radii = prevProps.radii ∧
             props.tilt ≠ prevProps.tilt ∧ props.options = prevProps.options) ∨
            (props.center = prevProps.center ∧ props.radii = prevProps.radii ∧
             props.tilt = prevProps.tilt ∧ props.options ≠ prevProps.options)) :
    (updateEllipse leafletMutators inst props prevProps).2 =
      [MutatorCall.setLatLng props.center, MutatorCall.setRadius props.radii,
       MutatorCall.setTilt props.tilt, MutatorCall.setStyle props.options] := by
  have h : shouldUpdate props prevProps = true := by
    rcases hone with ⟨h, _⟩ | ⟨_, h, _⟩ | ⟨_, _, h, _⟩ | ⟨_, _, _, h⟩ <;>
      simp [shouldUpdate, h]
  rw [updateEllipse_leaflet_fires inst props prevProps h]

/-- Claim C1 witness: the amended claim at the scenario's tilt-only change. -/
theorem updateEllipse_single_change_all_mutators_witness :
    (updateEllipse leafletMutators inst0 scenarioPropsTilt20 scenarioProps).2 =
      [MutatorCall.setLatLng scenarioPropsTilt20.center,
       MutatorCall.setRadius scenarioPropsTilt20.radii,
       MutatorCall.setTilt scenarioPropsTilt20.tilt,
       MutatorCall.setStyle scenarioPropsTilt20.options] :=
  updateEllipse_single_change_all_mutators inst0 scenarioPropsTilt20 scenarioProps
    (Or.inr (Or.inr (Or.inl (by decide))))

/-- Claim C2: the context `createEllipse` returns equals the input context
with only the `overlayContainer` key replaced by (a reference to) the newly
created instance; every other key passes through unchanged.  The embedding is
pure, so the input context itself is untouched: two sibling elements created
from the same parent context each read the unmodified parent, and neither
observes the other's override. -/
theorem createEllipse_context_pass_through (fresh : Nat) (props : Props)
    (context : Ctx) :
    (createEllipse fresh props context).1.context CtxKey.overlayContainer =
      JSVal.ref (createEllipse fresh props context).1.instAddr ∧
    ∀ k : CtxKey, k ≠ CtxKey.overlayContainer →
      (createEllipse fresh props context).1.context k = context k := by
  constructor
  · simp [createEllipse]
  · intro k hk
    simp [createEllipse, hk]

/-- Claim C2 witness: at the scenario input, the `map` key of the derived
context is the parent's `map` value. -/
theorem createEllipse_context_pass_through_witness :
    (createEllipse 7 scenarioProps ctxRoot).1.context CtxKey.map =
      ctxRoot CtxKey.map :=
  (createEllipse_context_pass_through 7 scenarioProps ctxRoot).2 CtxKey.map
    (by decide)

/-- Claim C4: `createEllipse` performs no layer event other than allocating
the instance — in particular its trace contains no `addLayer` call, so
attachment is left entirely to the mount effect. -/
theorem createEllipse_no_attach (fresh : Nat) (props : Props) (context : Ctx) :
    ((createEllipse fresh props context).2.all fun ev => !isAddLayer ev) = true ∧
    (createEllipse fresh props context).2 =
      [Event.allocEllipse fresh
        (LEllipse.new props.center props.radii props.tilt props.options)] :=
  ⟨rfl, rfl⟩

/-- Claim C6: when center, radii, tilt and options are each reference-equal
between `props` and `prevProps`, `updateEllipse` performs no work: whatever
the mutators would do, none is invoked and the instance is returned
unchanged. -/
theorem updateEllipse_no_change_no_calls (m : MutatorSet) (inst : LEllipse)
    (props prevProps : Props)
    (hc : props.center = prevProps.center) (hr : props.radii = prevProps.radii)
    (ht : props.tilt = prevProps.tilt) (ho : props.options = prevProps.options) :
    updateEllipse m inst props prevProps = (Except.ok inst, []) := by
  have h : shouldUpdate props prevProps = false := by
    simp [shouldUpdate, hc, hr, ht, ho]
  simp [updateEllipse, h]

/-- Claim C6 witness: re-evaluating with the identical scenario props calls
no mutator. -/
theorem updateEllipse_no_change_no_calls_witness :
    updateEllipse leafletMutators inst0 scenarioProps scenarioProps =
      (Except.ok inst0, []) :=
  updateEllipse_no_change_no_calls leafletMutators inst0 scenarioProps
    scenarioProps rfl rfl rfl rfl

/-- Claim C9: whenever at least one of center, radii, tilt or options differs
by reference between `props` and `prevProps`, `updateEllipse` invokes all
four mutators — `setLatLng`, `setRadius`, `setTilt`, `setStyle`, in that
order, each with the value from the new props — including the mutators for
attributes whose values did not change. -/
theorem updateEllipse_any_change_all_mutators (inst : LEllipse)
    (props prevProps : Props)
    (hdiff : props.center ≠ prevProps.center ∨ props.radii ≠ prevProps.radii ∨
             props.tilt ≠ prevProps.tilt ∨ props.options ≠ prevProps.options) :
    updateEllipse leafletMutators inst props prevProps =
      (Except.ok (LEllipse.new props.center props.radii props.tilt props.options),
       [MutatorCall.setLatLng props.center, MutatorCall.setRadius props.radii,
        MutatorCall.setTilt props.tilt, MutatorCall.setStyle props.options]) := by
  apply updateEllipse_leaflet_fires
  rcases hdiff with h | h | h | h <;> simp [shouldUpdate, h]

/-- Claim C9 witness: replacing only the center array reference triggers all
four mutator calls. -/
theorem updateEllipse_any_change_all_mutators_witness :
    updateEllipse leafletMutators inst0 scenarioPropsNewCenter scenarioProps =
      (Except.ok (LEllipse.new scenarioPropsNewCenter.center
          scenarioPropsNewCenter.radii scenarioPropsNewCenter.tilt
          scenarioPropsNewCenter.options),
       [MutatorCall.setLatLng scenarioPropsNewCenter.center,
        MutatorCall.setRadius scenarioPropsNewCenter.radii,
        MutatorCall.setTilt scenarioPropsNewCenter.tilt,
        MutatorCall.setStyle scenarioPropsNewCenter.options]) :=
  updateEllipse_any_change_all_mutators inst0 scenarioPropsNewCenter scenarioProps
    (Or.inl (by decide))

/-- Claim C3: the mount effect resolves its attachment point as
`context.layerContainer || context.map` from the inherited context, performs
exactly one `addLayer` of the created instance on it, and the cleanup closure
detaches that same instance from the very container value captured at mount
time (the cleanup consumes only the mount token, so a later change of the
context's container reference cannot alter the detach target). -/
theorem mountEffect_cleanup_symmetric (center radii tilt options : JSVal)
    (fresh : Nat) (context : Ctx) :
    (mountEffect center radii tilt options fresh context).1.container =
      (if truthy (context CtxKey.layerContainer) then context CtxKey.layerContainer
       else context CtxKey.map) ∧
    (mountEffect center radii tilt options fresh context).1.layer =
      JSVal.ref fresh ∧
    List.countP isAddLayer (mountEffect center radii tilt options fresh context).2
      = 1 ∧
    (mountEffect center radii tilt options fresh context).2 =
      [Event.allocEllipse fresh (LEllipse.new center radii tilt options),
       Event.addLayer (mountEffect center radii tilt options fresh context).1.container
         (JSVal.ref fresh)] ∧
    cleanupEffect (mountEffect center radii tilt options fresh context).1 =
      [Event.removeLayer
        (if truthy (context CtxKey.layerContainer) then context CtxKey.layerContainer
         else context CtxKey.map)
        (JSVal.ref fresh)] :=
  ⟨rfl, rfl, rfl, rfl, rfl⟩

/-- Claim C5: `updateEllipse` wraps no mutator call in a catch: whichever of
`setLatLng`, `setRadius`, `setTilt`, `setStyle` throws first, its error is
the synchronous result handed to the caller, the preceding mutators having
each been called exactly once and the following ones not at all — no
validation, no swallowing, no retry. -/
theorem updateEllipse_error_propagates (m : MutatorSet) (inst : LEllipse)
    (props prevProps : Props) (e : String)
    (hdiff : shouldUpdate props prevProps = true) :
    (m.setLatLng inst props.center = Except.error e →
      updateEllipse m inst props prevProps =
        (Except.error e, [MutatorCall.setLatLng props.center])) ∧
    (∀ i1, m.setLatLng inst props.center = Except.ok i1 →
      m.setRadius i1 props.radii = Except.error e →
      updateEllipse m inst props prevProps =
        (Except.error e,
         [MutatorCall.setLatLng props.center, MutatorCall.setRadius props.radii])) ∧
    (∀ i1 i2, m.setLatLng inst props.center = Except.ok i1 →
      m.setRadius i1 props.radii = Except.ok i2 →
      m.setTilt i2 props.tilt = Except.error e →
      updateEllipse m inst props prevProps =
        (Except.error e,
         [MutatorCall.setLatLng props.center, MutatorCall.setRadius props.radii,
          MutatorCall.setTilt props.tilt])) ∧
    (∀ i1 i2 i3, m.setLatLng inst props.center = Except.ok i1 →
      m.setRadius i1 props.radii = Except.ok i2 →
      m.setTilt i2 props.tilt = Except.ok i3 →
      m.setStyle i3 props.options = Except.error e →
      updateEllipse m inst props prevProps =
        (Except.error e,
         [MutatorCall.setLatLng props.center, MutatorCall.setRadius props.radii,
          MutatorCall.setTilt props.tilt, MutatorCall.setStyle props.options])) := by
  refine ⟨?_, ?_, ?_, ?_⟩ <;> intros <;> simp_all [updateEllipse, hdiff]

/-- Claim C5 witness: with a `setTilt` that throws on the scenario's
tilt-only change, the error surfaces as the result of `updateEllipse`, after
exactly one call to each of `setLatLng`, `setRadius`, `setTilt` and none to
`setStyle`. -/
theorem updateEllipse_error_propagates_witness :
    updateEllipse tiltRejectingMutators inst0 scenarioPropsTilt20 scenarioProps =
      (Except.error ("invalid tilt"),
       [MutatorCall.setLatLng scenarioPropsTilt20.center,
        MutatorCall.setRadius scenarioPropsTilt20.radii,
        MutatorCall.setTilt scenarioPropsTilt20.tilt]) :=
  (updateEllipse_error_propagates tiltRejectingMutators inst0 scenarioPropsTilt20
      scenarioProps ("invalid tilt") (by decide)).2.2.1 _ _ rfl rfl rfl

/-- Claim C7: there are props and prevProps that are structurally identical —
every attribute has equal value relative to the heap — yet `updateEllipse`
invokes the mutators, because the guard compares by reference: a newly
allocated but value-equal center array triggers a spurious update. -/
theorem updateEllipse_spurious_update :
    ∃ (h : Heap) (inst : LEllipse) (props prevProps : Props),
      structEq h props.center prevProps.center ∧
      structEq h props.radii prevProps.radii ∧
      structEq h props.tilt prevProps.tilt ∧
      structEq h props.options prevProps.options ∧
      (updateEllipse leafletMutators inst props prevProps).2 ≠ [] := by
  refine ⟨scenarioHeap, inst0, scenarioPropsNewCenter, scenarioProps,
    ?_, Or.inl rfl, Or.inl rfl, Or.inl rfl, by decide⟩
  exact Or.inr ⟨3, 0, HVal.arr [JSVal.num 38, JSVal.num (-82)], rfl, rfl, rfl, rfl⟩

/-- Claim C8: on the scenario props `{center:[38,-82], radii:[500000,300000],
tilt:15, options:{color:'blue'}}`, `createEllipse` builds the instance by
passing exactly the four prop values to the `L.Ellipse` constructor in
positional order center, radii, tilt, options; the heap rows pin the values
behind the three references. -/
theorem createEllipse_scenario_instance :
    (createEllipse 7 scenarioProps ctxRoot).1.inst =
      LEllipse.new scenarioProps.center scenarioProps.radii scenarioProps.tilt
        scenarioProps.options ∧
    (createEllipse 7 scenarioProps ctxRoot).1.inst.center = JSVal.ref 0 ∧
    (createEllipse 7 scenarioProps ctxRoot).1.inst.radii = JSVal.ref 1 ∧
    (createEllipse 7 scenarioProps ctxRoot).1.inst.tilt = JSVal.num 15 ∧
    (createEllipse 7 scenarioProps ctxRoot).1.inst.options = JSVal.ref 2 ∧
    scenarioHeap 0 = some (HVal.arr [JSVal.num 38, JSVal.num (-82)]) ∧
    scenarioHeap 1 = some (HVal.arr [JSVal.num 500000, JSVal.num 300000]) ∧
    scenarioHeap 2 = some (HVal.obj [(("color"), JSVal.str ("blue"))]) := by
  decide

/-- Claim C10: `Map.jsx` keys each `Ellipse` by `city.tilt` and each `Popup`
by `city.lat`, so two distinct cities of the input list with equal tilt
produce `Ellipse` elements with identical keys — declarative identity is a
function of tilt alone. -/
theorem map_ellipse_key_is_tilt (cities : List City) (c1 c2 : City)
    (_h1 : c1 ∈ cities) (_h2 : c2 ∈ cities) (_hne : c1 ≠ c2)
    (htilt : c1.tilt = c2.tilt) :
    (renderCityEllipse c1).key = (renderCityEllipse c2).key ∧
    (renderCityEllipse c1).key = c1.tilt ∧
    (renderCityEllipse c1).popupKey = c1.lat ∧
    (renderEllipses cities).map EllipseJSX.key = cities.map City.tilt := by
  refine ⟨?_, rfl, rfl, ?_⟩
  · simp [renderCityEllipse, htilt]
  · rw [renderEllipses, List.map_map]
    rfl

/-- Two cities sharing the tilt value `15` but differing everywhere else. -/
def cityA : City :=
  { lat := 38, lng := -82, semimajor := 500000, semiminor := 300000
    tilt := 15, options := JSVal.ref 2 }

/-- A second city with the same tilt as `cityA`. -/
def cityB : City :=
  { lat := 40, lng := -70, semimajor := 100, semiminor := 50
    tilt := 15, options := JSVal.undef }

/-- Claim C10 witness: the two distinct cities with tilt `15` get the same
`Ellipse` key. -/
theorem map_ellipse_key_is_tilt_witness :
    (renderCityEllipse cityA).key = (renderCityEllipse cityB).key :=
  (map_ellipse_key_is_tilt [cityA, cityB] cityA cityB (by decide) (by decide)
    (by decide) rfl).1

end ReactLeafletEllipse
